import Mathlib

/-!
Verification of the website-summarising pipeline.

The program fetches a web page, extracts a title and a cleaned text body
from the parsed HTML tree, builds a two-message prompt, and sends it to a
chat-completion endpoint.  The development below embeds the pipeline
shallowly: the parsed HTML document is a tree of element and text nodes,
Python string operations are modelled structurally over the character
list, the network boundaries (HTTP fetch, chat completion) are oracles
supplied through an environment record, and the orchestrator additionally
records which stages were invoked so that non-invocation properties can
be stated.
-/

/-! ## Python string primitives, modelled structurally -/

/-- The characters Python's `str.strip()` removes. -/
def isPySpace (c : Char) : Bool :=
  c = ' ' || c = '\t' || c = '\n' || c = '\r' || c = '\x0b' || c = '\x0c'

/-- Python `s.strip()`: drop leading and trailing whitespace. -/
def pyStrip (s : String) : String :=
  ⟨((s.data.dropWhile isPySpace).reverse.dropWhile isPySpace).reverse⟩

/-- Python `s.startswith(p)`. -/
def pyStartsWith (s p : String) : Bool := p.data.isPrefixOf s.data

/-- Python `str(x)` for an optional string (`str(None) = "None"`). -/
def pyStr : Option String → String
  | some s => s
  | none => "None"

/-- Python `sep.join(l)`, written as two structural passes. -/
def joinTail (sep : String) : List String → String
  | [] => ""
  | a :: as => sep ++ a ++ joinTail sep as

/-- Python `sep.join(l)`. -/
def joinSep (sep : String) : List String → String
  | [] => ""
  | a :: as => a ++ joinTail sep as

/-- `s` occurs contiguously inside `t`. -/
def SubstrOf (s t : String) : Prop := ∃ a b, t = a ++ s ++ b

/-! ## The parsed HTML document tree -/

mutual
/-- A node of the parsed document: a text fragment (`NavigableString`) or an
element with a tag and children. -/
inductive Node where
  | text (s : String)
  | elem (tag : String) (children : NodeList)
deriving Repr
/-- The children of an element / the top-level nodes of a document. -/
inductive NodeList where
  | nil
  | cons (head : Node) (tail : NodeList)
deriving Repr
end

/-- Build a `NodeList` from an ordinary list of nodes. -/
def NodeList.ofList : List Node → NodeList
  | [] => .nil
  | n :: ns => .cons n (NodeList.ofList ns)

/-- The element kinds the extractor decomposes before reading text:
`soup(["script", "style", "img", "input"])`. -/
def removedTags : List String := ["script", "style", "img", "input"]

/-- Whether a node is an element of one of the removed kinds. -/
def isRemovedElem : Node → Bool
  | .text _ => false
  | .elem t _ => removedTags.contains t

mutual
/-- Remove every element of a removed kind (with its whole subtree),
mirroring `irrelevant.decompose()` below each surviving node. -/
def scrubNode : Node → Node
  | .text s => .text s
  | .elem t cs => .elem t (scrubChildren cs)
/-- `scrubNode` on every child, dropping removed elements. -/
def scrubChildren : NodeList → NodeList
  | .nil => .nil
  | .cons c cs =>
      if isRemovedElem c then scrubChildren cs
      else .cons (scrubNode c) (scrubChildren cs)
end

mutual
/-- Every text fragment below a node, in document order. -/
def textsNode : Node → List String
  | .text s => [s]
  | .elem _ cs => textsChildren cs
/-- Every text fragment below a node list, in document order. -/
def textsChildren : NodeList → List String
  | .nil => []
  | .cons c cs => textsNode c ++ textsChildren cs
end

mutual
/-- The stripped text fragments a node contributes to `get_text(strip=True)`:
each fragment is stripped and fragments that strip to empty are skipped. -/
def strippedNode : Node → List String
  | .text s => if pyStrip s = "" then [] else [pyStrip s]
  | .elem _ cs => strippedChildren cs
/-- `strippedNode` over a node list. -/
def strippedChildren : NodeList → List String
  | .nil => []
  | .cons c cs => strippedNode c ++ strippedChildren cs
end

mutual
/-- `soup.title` restricted to one node: the first `title` element in
pre-order, if any. -/
def findTitleNode : Node → Option Node
  | .text _ => none
  | .elem t cs => if t == "title" then some (.elem t cs) else findTitleChildren cs
/-- `soup.title`: the first `title` element of the document in pre-order. -/
def findTitleChildren : NodeList → Option Node
  | .nil => none
  | .cons c cs =>
      match findTitleNode c with
      | some r => some r
      | none => findTitleChildren cs
end

/-- BeautifulSoup `Tag.string`: the single string below a tag, `None` when the
tag does not have exactly one child, recursing through a single tag child. -/
def nodeString : Node → Option String
  | .text s => some s
  | .elem _ (.cons c .nil) => nodeString c
  | .elem _ _ => none

mutual
/-- `occursOutsideNode n x`: the string `x` is a text node below `n` that is
not inside any removed-kind element (including `n` itself). -/
def occursOutsideNode : Node → String → Bool
  | .text s, x => s == x
  | .elem t cs, x => !(removedTags.contains t) && occursOutsideChildren cs x
/-- `occursOutsideNode` over a node list. -/
def occursOutsideChildren : NodeList → String → Bool
  | .nil, _ => false
  | .cons c cs, x => occursOutsideNode c x || occursOutsideChildren cs x
end

mutual
/-- Whether any removed-kind element occurs anywhere in the tree below `n`. -/
def containsRemovedNode : Node → Bool
  | .text _ => false
  | .elem t cs => removedTags.contains t || containsRemovedChildren cs
/-- `containsRemovedNode` over a node list. -/
def containsRemovedChildren : NodeList → Bool
  | .nil => false
  | .cons c cs => containsRemovedNode c || containsRemovedChildren cs
end

/-! ## The `Website` class -/

/-- The result of `Website.__init__` after fetching: the page url, the value
of `soup.title.string if soup.title else "No title found"` (which is a
Python string or `None`, modelled as `Option String`), and the cleaned
text content. -/
structure Website where
  url : String
  title : Option String
  content : String
deriving Repr

/-- The pure part of `Website.__init__` applied to a parsed document:
`title` is read before decomposition, `content` is
`soup.get_text(separator=" \n", strip=True)` after decomposition. -/
def Website.ofDoc (url : String) (doc : NodeList) : Website :=
  { url := url
    title :=
      match findTitleChildren doc with
      | some tag => nodeString tag
      | none => some "No title found"
    content := joinSep " \n" (strippedChildren (scrubChildren doc)) }

/-- The content extractor on its own: `extract(html)` in the specification. -/
def extract (doc : NodeList) : Website := Website.ofDoc "" doc

/-- The content the specification text describes for the extractor: every
remaining text fragment stripped, all of them joined by `" \n"`, with no
fragment dropped. -/
def specDescribedContent (doc : NodeList) : String :=
  joinSep " \n" ((textsChildren (scrubChildren doc)).map pyStrip)

/-! ## Prompts and messages -/

/-- One chat message. -/
structure Message where
  role : String
  content : String
deriving Repr, DecidableEq

/-- The fixed system prompt. -/
def system_prompt : String :=
  "You are an assistant that analyzes the contents of a website " ++
  "and provides a short summary, ignoring text that might be navigation related. " ++
  "Respond in markdown."

/-- `user_prompt_for(website)`: the title line, the fixed instruction
sentence, then the whole extracted content appended verbatim. -/
def user_prompt_for (website : Website) : String :=
  "You are looking at a website titled " ++ pyStr website.title ++
  "\nThe contents of this website is as follows; " ++
  "please provide a short summary of this website in markdown. " ++
  "If it includes news or announcements, then summarize these too.\n\n" ++
  website.content

/-- `message_for(website)`: the two-message payload. -/
def message_for (website : Website) : List Message :=
  [{ role := "system", content := system_prompt },
   { role := "user", content := user_prompt_for website }]

/-! ## Credential validation -/

/-- The startup validation cell: `os.getenv` yields `none` when the variable
is unset; an empty string is falsy; then the prefix and whitespace checks
run in order.  A raised `ValueError` is the `Except.error` case. -/
def validate_api_key : Option String → Except String Unit
  | none => .error "OPENAI_API_KEY environment variable is not set."
  | some api_key =>
      if api_key = "" then
        .error "OPENAI_API_KEY environment variable is not set."
      else if !(pyStartsWith api_key "sk-") then
        .error "OPENAI_API_KEY must start with sk-."
      else if pyStrip api_key ≠ api_key then
        .error "OPENAI_API_KEY must not contain leading or trailing whitespace."
      else
        .ok ()

/-! ## The chat endpoint and the orchestrator -/

/-- The message part of one completion choice. -/
structure ChatMessage where
  content : String
deriving Repr, DecidableEq

/-- One completion choice. -/
structure Choice where
  message : ChatMessage
deriving Repr, DecidableEq

/-- A chat-completion response: its list of choices. -/
structure ChatResponse where
  choices : List Choice
deriving Repr, DecidableEq

/-- The failures the pipeline can surface: a `ValueError` from validation,
a `requests` failure, an error raised by the chat client, and the
`IndexError` of `response.choices[0]` on an empty choice list. -/
inductive PyError where
  | valueError (msg : String)
  | fetchError (msg : String)
  | apiError (msg : String)
  | indexError
deriving Repr, DecidableEq

/-- The observable stage invocations of one pipeline run. -/
inductive Event where
  | fetchCall (url : String)
  | buildCall
  | apiCall
deriving Repr, DecidableEq

/-- The two I/O boundaries, supplied as oracles: `fetch` returns the parsed
document of `requests.get(url)` (or the network failure), `chat` takes the
model identifier and the messages. -/
structure Env where
  fetch : String → Except String NodeList
  chat : String → List Message → Except String ChatResponse

/-- `summarize_website(url)`: build the `Website`, build the messages, call
the endpoint, and return `response.choices[0].message.content.strip()`.
The second component records which stages ran. -/
def summarize_website (env : Env) (url : String) :
    Except PyError String × List Event :=
  match env.fetch url with
  | .error e => (.error (.fetchError e), [.fetchCall url])
  | .ok doc =>
      let website := Website.ofDoc url doc
      let messages := message_for website
      match env.chat "gpt-4o-mini" messages with
      | .error e => (.error (.apiError e), [.fetchCall url, .buildCall, .apiCall])
      | .ok response =>
          match response.choices with
          | [] => (.error .indexError, [.fetchCall url, .buildCall, .apiCall])
          | choice :: _ =>
              (.ok (pyStrip choice.message.content),
               [.fetchCall url, .buildCall, .apiCall])

/-- A whole session: the validation cell runs first; only when it succeeds
does any pipeline stage run. -/
def run_session (key : Option String) (env : Env) (url : String) :
    Except PyError String × List Event :=
  match validate_api_key key with
  | .error e => (.error (.valueError e), [])
  | .ok _ => summarize_website env url

/-! ## Concrete environments used to instantiate the theorems -/

/-- Classify the apiError results among pipeline outcomes. -/
def isApiErrorResult : Except PyError String → Bool
  | .error (.apiError _) => true
  | _ => false

/-- An environment whose oracles are never reached in the scenarios that
use it. -/
def idleEnv : Env :=
  { fetch := fun _ => .ok NodeList.nil
    chat := fun _ _ => .ok { choices := [] } }

/-- An environment whose fetch stage fails (unreachable host). -/
def downEnv : Env :=
  { fetch := fun _ => .error "unreachable host"
    chat := fun _ _ => .ok { choices := [{ message := { content := "A short summary." } }] } }

/-- An environment whose chat endpoint answers with an empty choice list. -/
def emptyChoicesEnv : Env :=
  { fetch := fun _ => .ok (NodeList.ofList
      [Node.elem "title" (NodeList.ofList [Node.text "T"]), Node.text "hello"])
    chat := fun _ _ => .ok { choices := [] } }

/-- An environment whose chat endpoint answers with one choice whose content
carries surrounding whitespace. -/
def oneChoiceEnv : Env :=
  { fetch := fun _ => .ok (NodeList.ofList [Node.text "hello"])
    chat := fun _ _ => .ok { choices := [{ message := { content := " A short summary. " } }] } }

/-! ## Helper lemmas -/

/-- Two strings with the same character data are equal. -/
theorem string_eq_of_data {a b : String} (h : a.data = b.data) : a = b := by
  cases a; cases b; exact congrArg String.mk h

/-- `SubstrOf` coincides with the infix relation on character data. -/
theorem substrOf_iff_infixData (s t : String) : SubstrOf s t ↔ s.data <:+: t.data := by
  constructor
  · rintro ⟨a, b, rfl⟩
    exact ⟨a.data, b.data, by simp [String.data_append]⟩
  · rintro ⟨l₁, l₂, h⟩
    refine ⟨⟨l₁⟩, ⟨l₂⟩, ?_⟩
    refine (string_eq_of_data ?_).symm
    simpa [String.data_append] using h

/-- Prefixing a string keeps a substring occurrence. -/
theorem SubstrOf.prepend (c : String) {s t : String} (h : SubstrOf s t) :
    SubstrOf s (c ++ t) := by
  obtain ⟨a, b, rfl⟩ := h
  refine ⟨c ++ a, b, ?_⟩
  rw [String.append_assoc, String.append_assoc, String.append_assoc]

/-- A member of the list is a substring of the tail join. -/
theorem mem_joinTail (sep : String) {x : String} :
    ∀ l : List String, x ∈ l → SubstrOf x (joinTail sep l)
  | a :: as, h => by
      rcases List.mem_cons.mp h with rfl | h
      · exact ⟨sep, joinTail sep as, rfl⟩
      · have hsub := ((mem_joinTail sep as h).prepend a).prepend sep
        simpa [joinTail, String.append_assoc] using hsub

/-- A member of the list is a substring of the join. -/
theorem mem_joinSep (sep : String) {x : String} :
    ∀ l : List String, x ∈ l → SubstrOf x (joinSep sep l)
  | a :: as, h => by
      rcases List.mem_cons.mp h with rfl | h
      · exact ⟨"", joinTail sep as, by simp [joinSep, String.empty_append]⟩
      · exact (mem_joinTail sep as h).prepend a

mutual
/-- Scrubbing a node that is not itself of a removed kind leaves no removed
element anywhere below it. -/
theorem containsRemoved_scrubNode :
    ∀ n : Node, isRemovedElem n = false → containsRemovedNode (scrubNode n) = false
  | .text _, _ => rfl
  | .elem t cs, h => by
      simp only [isRemovedElem] at h
      simp only [scrubNode, containsRemovedNode, h,
        containsRemoved_scrubChildren cs, Bool.or_self]
/-- Scrubbing leaves no removed element anywhere in the tree. -/
theorem containsRemoved_scrubChildren :
    ∀ ns : NodeList, containsRemovedChildren (scrubChildren ns) = false
  | .nil => rfl
  | .cons c cs => by
      cases hc : isRemovedElem c with
      | true => simp [scrubChildren, hc, containsRemoved_scrubChildren cs]
      | false =>
          simp [scrubChildren, hc, containsRemovedChildren,
            containsRemoved_scrubNode c hc, containsRemoved_scrubChildren cs]
end

mutual
/-- The stripped fragments of a node are the stripped raw fragments with the
empty ones filtered out. -/
theorem strippedNode_eq_filter :
    ∀ n : Node, strippedNode n = ((textsNode n).map pyStrip).filter (· ≠ "")
  | .text s => by
      by_cases h : pyStrip s = "" <;> simp [strippedNode, textsNode, h]
  | .elem t cs => by
      simpa [strippedNode, textsNode] using strippedChildren_eq_filter cs
/-- `strippedNode_eq_filter` over a node list. -/
theorem strippedChildren_eq_filter :
    ∀ ns : NodeList, strippedChildren ns = ((textsChildren ns).map pyStrip).filter (· ≠ "")
  | .nil => rfl
  | .cons c cs => by
      simp [strippedChildren, textsChildren, strippedNode_eq_filter c,
        strippedChildren_eq_filter cs]
end

mutual
/-- A text fragment lying outside every removed element survives scrubbing:
its stripped form is among the stripped fragments, provided it does not
strip to empty. -/
theorem occursOutsideNode_mem :
    ∀ (n : Node) (x : String), occursOutsideNode n x = true → pyStrip x ≠ "" →
      pyStrip x ∈ strippedNode (scrubNode n)
  | .text s, x, h, hne => by
      simp only [occursOutsideNode, beq_iff_eq] at h
      subst h
      simp [scrubNode, strippedNode, hne]
  | .elem t cs, x, h, hne => by
      simp only [occursOutsideNode, Bool.and_eq_true, Bool.not_eq_true'] at h
      simpa [scrubNode, strippedNode] using occursOutsideChildren_mem cs x h.2 hne
/-- `occursOutsideNode_mem` over a node list. -/
theorem occursOutsideChildren_mem :
    ∀ (ns : NodeList) (x : String), occursOutsideChildren ns x = true → pyStrip x ≠ "" →
      pyStrip x ∈ strippedChildren (scrubChildren ns)
  | .cons c cs, x, h, hne => by
      simp only [occursOutsideChildren, Bool.or_eq_true] at h
      rcases h with hc | hcs
      · have hcr : isRemovedElem c = false := by
          cases c with
          | text s => rfl
          | elem t gs =>
              simp only [occursOutsideNode, Bool.and_eq_true, Bool.not_eq_true'] at hc
              simp only [isRemovedElem]
              exact hc.1
        simp [scrubChildren, hcr, strippedChildren,
          occursOutsideNode_mem c x hc hne]
      · cases hcr : isRemovedElem c with
        | true =>
            simpa [scrubChildren, hcr] using occursOutsideChildren_mem cs x hcs hne
        | false =>
            simp [scrubChildren, hcr, strippedChildren,
              occursOutsideChildren_mem cs x hcs hne]
end

mutual
/-- Every stripped fragment of a scrubbed node (itself not of a removed kind)
comes from some raw text node lying outside every removed element. -/
theorem strippedNode_src :
    ∀ n : Node, isRemovedElem n = false →
      ∀ x ∈ strippedNode (scrubNode n),
        ∃ s, occursOutsideNode n s = true ∧ pyStrip s = x
  | .text s, _, x, hx => by
      by_cases h : pyStrip s = ""
      · simp [scrubNode, strippedNode, h] at hx
      · simp only [scrubNode, strippedNode, if_neg h, List.mem_singleton] at hx
        exact ⟨s, by simp [occursOutsideNode], hx.symm⟩
  | .elem t cs, h, x, hx => by
      simp only [isRemovedElem] at h
      simp only [scrubNode, strippedNode] at hx
      obtain ⟨s, hs, hps⟩ := strippedChildren_src cs x hx
      refine ⟨s, ?_, hps⟩
      simp only [occursOutsideNode, h, hs, Bool.not_false, Bool.true_and]
/-- `strippedNode_src` over a node list. -/
theorem strippedChildren_src :
    ∀ ns : NodeList, ∀ x ∈ strippedChildren (scrubChildren ns),
      ∃ s, occursOutsideChildren ns s = true ∧ pyStrip s = x
  | .cons c cs, x, hx => by
      cases hc : isRemovedElem c with
      | true =>
          rw [scrubChildren, if_pos hc] at hx
          obtain ⟨s, hs, hps⟩ := strippedChildren_src cs x hx
          exact ⟨s, by simp [occursOutsideChildren, hs], hps⟩
      | false =>
          rw [scrubChildren, if_neg (by simp [hc])] at hx
          rw [strippedChildren] at hx
          rcases List.mem_append.mp hx with hl | hr
          · obtain ⟨s, hs, hps⟩ := strippedNode_src c hc x hl
            exact ⟨s, by simp [occursOutsideChildren, hs], hps⟩
          · obtain ⟨s, hs, hps⟩ := strippedChildren_src cs x hr
            exact ⟨s, by simp [occursOutsideChildren, hs], hps⟩
end

/-! ## Claim theorems -/

/-- Claim C1, counterexample: for the document whose title element holds the
text " T ", the extracted title is the raw string " T ", not its trimmed
form "T", so the title is not the trimmed text of the title element. -/
theorem extract_title_not_trimmed_cex :
    (extract (NodeList.ofList [Node.elem "title" (NodeList.ofList [Node.text " T "])])).title
      = some " T "
    ∧ pyStrip " T " = "T"
    ∧ (extract (NodeList.ofList [Node.elem "title" (NodeList.ofList [Node.text " T "])])).title
      ≠ some (pyStrip " T ") := by
  refine ⟨rfl, by decide, by decide⟩

/-- Claim C1 (amended): when the document has no title element the extracted
title is the sentinel "No title found"; when the first title element holds a
single text child `s`, the extracted title is `s` itself, untrimmed. -/
theorem extract_title_spec (doc : NodeList) :
    (findTitleChildren doc = none → (extract doc).title = some "No title found")
    ∧ ∀ t s,
        findTitleChildren doc = some (Node.elem t (NodeList.cons (Node.text s) NodeList.nil)) →
        (extract doc).title = some s := by
  constructor
  · intro h
    simp [extract, Website.ofDoc, h]
  · intro t s h
    simp [extract, Website.ofDoc, h, nodeString]

/-- Witness for `extract_title_spec` at two concrete documents: one with a
title element and one without. -/
theorem extract_title_spec_witness :
    (extract (NodeList.ofList [Node.elem "title" (NodeList.ofList [Node.text "Demo"])])).title
      = some "Demo"
    ∧ (extract NodeList.nil).title = some "No title found" := by
  constructor
  · exact (extract_title_spec _).2 "title" "Demo" rfl
  · exact (extract_title_spec NodeList.nil).1 rfl

/-- Claim C2: scrubbing removes every element of the removed kinds from the
tree, the extracted content is computed from the scrubbed tree alone, and
every fragment of the content originates from a text node lying outside
every removed-kind element. -/
theorem extract_content_no_removed (doc : NodeList) :
    containsRemovedChildren (scrubChildren doc) = false
    ∧ (extract doc).content = joinSep " \n" (strippedChildren (scrubChildren doc))
    ∧ ∀ x ∈ strippedChildren (scrubChildren doc),
        ∃ s, occursOutsideChildren doc s = true ∧ pyStrip s = x :=
  ⟨containsRemoved_scrubChildren doc, rfl, strippedChildren_src doc⟩

/-- Witness for `extract_content_no_removed` on a document holding a script
element: the single surviving fragment originates outside the script. -/
theorem extract_content_no_removed_witness :
    containsRemovedChildren (scrubChildren (NodeList.ofList
        [Node.elem "p" (NodeList.ofList [Node.text " a "]),
         Node.elem "script" (NodeList.ofList [Node.text "x"])])) = false
    ∧ ∃ s, occursOutsideChildren (NodeList.ofList
        [Node.elem "p" (NodeList.ofList [Node.text " a "]),
         Node.elem "script" (NodeList.ofList [Node.text "x"])]) s = true
        ∧ pyStrip s = "a" := by
  refine ⟨(extract_content_no_removed _).1, (extract_content_no_removed _).2.2 "a" ?_⟩
  decide

/-- Claim C7, counterexample: on a document with a whitespace-only text node
between two others, the content described by the specification (every
fragment trimmed and joined) differs from the extracted content, because
`get_text(strip=True)` skips fragments that strip to empty. -/
theorem specDescribedContent_ne_content_cex :
    specDescribedContent (NodeList.ofList [Node.text "a", Node.text " ", Node.text "b"])
      = "a \n \nb"
    ∧ (extract (NodeList.ofList [Node.text "a", Node.text " ", Node.text "b"])).content
      = "a \nb"
    ∧ specDescribedContent (NodeList.ofList [Node.text "a", Node.text " ", Node.text "b"])
      ≠ (extract (NodeList.ofList [Node.text "a", Node.text " ", Node.text "b"])).content := by
  refine ⟨by decide, by decide, by decide⟩

/-- Claim C7 (amended): the extracted content is the trimmed remaining text
fragments of the scrubbed tree, with fragments that trim to empty dropped,
joined by the separator " \n"; no other normalisation happens. -/
theorem extract_content_formula (doc : NodeList) :
    (extract doc).content =
      joinSep " \n" (((textsChildren (scrubChildren doc)).map pyStrip).filter (· ≠ "")) := by
  simp only [extract, Website.ofDoc, strippedChildren_eq_filter]

/-- Claim C8: evaluation of the extractor at the failing input: a document
whose title element exists but has no text yields a `None` title (the
`title: str` annotation and the never-empty invariant are both violated;
the sentinel is substituted only when the title element is absent). -/
theorem extract_empty_title_none :
    (extract (NodeList.ofList [Node.elem "title" NodeList.nil,
        Node.elem "body" (NodeList.ofList [Node.text "hi"])])).title = none
    ∧ none ≠ some "No title found" := by
  exact ⟨rfl, by decide⟩

/-- Claim C9: the extractor is deterministic and stateless: two calls on
identical parsed input yield identical output. -/
theorem extract_deterministic (d₁ d₂ : NodeList) (h : d₁ = d₂) :
    extract d₁ = extract d₂ := by rw [h]

/-- Witness for `extract_deterministic` at a concrete document. -/
theorem extract_deterministic_witness :
    extract (NodeList.ofList [Node.text "hello"])
      = extract (NodeList.ofList [Node.text "hello"]) :=
  extract_deterministic _ _ rfl

/-- Claim C3: the prompt builder returns exactly the two messages
[system, user] in order, the system content being the fixed constant; the
user content contains the page title as a substring and ends with the whole
page content appended verbatim. -/
theorem message_for_spec (w : Website) :
    message_for w = [{ role := "system", content := system_prompt },
                     { role := "user", content := user_prompt_for w }]
    ∧ (∀ s, w.title = some s → SubstrOf s (user_prompt_for w))
    ∧ ∃ p, user_prompt_for w = p ++ w.content := by
  refine ⟨rfl, ?_, ?_⟩
  · intro s hs
    refine ⟨"You are looking at a website titled ",
      "\nThe contents of this website is as follows; " ++
      "please provide a short summary of this website in markdown. " ++
      "If it includes news or announcements, then summarize these too.\n\n" ++
      w.content, ?_⟩
    simp [user_prompt_for, hs, pyStr, String.append_assoc]
  · exact ⟨"You are looking at a website titled " ++ pyStr w.title ++
      "\nThe contents of this website is as follows; " ++
      "please provide a short summary of this website in markdown. " ++
      "If it includes news or announcements, then summarize these too.\n\n", rfl⟩

/-- Witness for `message_for_spec` at a concrete page. -/
theorem message_for_spec_witness :
    SubstrOf "T" (user_prompt_for { url := "u", title := some "T", content := "C" })
    ∧ ∃ p, user_prompt_for { url := "u", title := some "T", content := "C" } = p ++ "C" := by
  exact ⟨(message_for_spec _).2.1 "T" rfl, (message_for_spec _).2.2⟩

/-- Claim C10, counterexample: the raw text " T " of the title element is
not a substring of the extracted content; only its trimmed form appears. -/
theorem title_untrimmed_not_in_content_cex :
    (extract (NodeList.ofList [Node.elem "title" (NodeList.ofList [Node.text " T "]),
        Node.elem "body" (NodeList.ofList [Node.text "B"])])).content = "T \nB"
    ∧ ¬ SubstrOf " T "
        (extract (NodeList.ofList [Node.elem "title" (NodeList.ofList [Node.text " T "]),
          Node.elem "body" (NodeList.ofList [Node.text "B"])])).content := by
  refine ⟨by decide, fun h => ?_⟩
  have hinf := (substrOf_iff_infixData " T " _).mp h
  revert hinf
  decide

/-- Claim C10 (amended): text extraction walks the whole tree including the
head, and the title element is not of a removed kind, so whenever the first
title element holds a single text child that lies outside every removed
element and does not strip to empty, its trimmed text occurs in the
extracted content as a substring. -/
theorem extract_content_contains_title (doc : NodeList) (t s : String)
    (ht : findTitleChildren doc
        = some (Node.elem t (NodeList.cons (Node.text s) NodeList.nil)))
    (ho : occursOutsideChildren doc s = true)
    (hne : pyStrip s ≠ "") :
    SubstrOf (pyStrip s) (extract doc).content := by
  have hmem := occursOutsideChildren_mem doc s ho hne
  exact mem_joinSep " \n" _ hmem

/-- Witness for `extract_content_contains_title` at a concrete document. -/
theorem extract_content_contains_title_witness :
    SubstrOf (pyStrip "Demo")
      (extract (NodeList.ofList [Node.elem "title" (NodeList.ofList [Node.text "Demo"]),
        Node.elem "body" (NodeList.ofList [Node.text "B"])])).content :=
  extract_content_contains_title _ "title" "Demo" rfl (by decide) (by decide)

/-- Claim C4: startup validation fails exactly when the credential is absent
or empty, lacks the "sk-" prefix, or carries surrounding whitespace; and
when it fails, the session performs no stage at all, in particular no
fetch. -/
theorem validate_api_key_spec (key : Option String) (env : Env) (url : String) :
    ((validate_api_key key ≠ .ok ()) ↔
      (key = none ∨ ∃ k, key = some k ∧
        (k = "" ∨ pyStartsWith k "sk-" = false ∨ pyStrip k ≠ k)))
    ∧ ((validate_api_key key ≠ .ok ()) → (run_session key env url).2 = []) := by
  constructor
  · cases key with
    | none => simp [validate_api_key]
    | some k =>
        by_cases h1 : k = ""
        · simp [validate_api_key, h1]
        · cases h2 : pyStartsWith k "sk-" with
          | false => simp [validate_api_key, h1, h2]
          | true =>
              by_cases h3 : pyStrip k = k
              · simp [validate_api_key, h1, h2, h3]
              · simp [validate_api_key, h1, h2, h3]
  · intro hv
    cases hk : validate_api_key key with
    | error e => simp [run_session, hk]
    | ok u => cases u; exact absurd hk hv

/-- Witness for `validate_api_key_spec`: the credential "abc-123" (no "sk-"
head) fails validation, and the session with it runs no stage. -/
theorem validate_api_key_spec_witness :
    validate_api_key (some "abc-123") ≠ Except.ok ()
    ∧ (run_session (some "abc-123") idleEnv "http://example.com/").2 = [] := by
  have h := validate_api_key_spec (some "abc-123") idleEnv "http://example.com/"
  have hv : validate_api_key (some "abc-123") ≠ Except.ok () :=
    h.1.mpr (Or.inr ⟨"abc-123", rfl, Or.inr (Or.inl (by decide))⟩)
  exact ⟨hv, h.2 hv⟩

/-- Claim C5: when the fetch stage fails, `summarize_website` propagates the
fetch failure unchanged, with no partial result, and neither the prompt
builder nor the chat endpoint is ever invoked. -/
theorem summarize_website_fetch_error (env : Env) (url msg : String)
    (h : env.fetch url = .error msg) :
    summarize_website env url
      = (.error (.fetchError msg), [Event.fetchCall url])
    ∧ Event.buildCall ∉ (summarize_website env url).2
    ∧ Event.apiCall ∉ (summarize_website env url).2 := by
  have heq : summarize_website env url
      = (.error (.fetchError msg), [Event.fetchCall url]) := by
    simp [summarize_website, h]
  refine ⟨heq, ?_, ?_⟩ <;> rw [heq] <;> simp

/-- Witness for `summarize_website_fetch_error` with an unreachable host. -/
theorem summarize_website_fetch_error_witness :
    summarize_website downEnv "http://no.such.host/"
      = (.error (.fetchError "unreachable host"), [Event.fetchCall "http://no.such.host/"])
    ∧ Event.buildCall ∉ (summarize_website downEnv "http://no.such.host/").2
    ∧ Event.apiCall ∉ (summarize_website downEnv "http://no.such.host/").2 :=
  summarize_website_fetch_error downEnv "http://no.such.host/" "unreachable host" rfl

/-- Claim C6, counterexample: on a response with an empty choice list the
pipeline fails with the uncaught index error of `response.choices[0]`, not
with an apiError raised by the client. -/
theorem empty_choices_not_apiError_cex :
    (summarize_website emptyChoicesEnv "http://x/").1 = Except.error PyError.indexError
    ∧ isApiErrorResult (summarize_website emptyChoicesEnv "http://x/").1 = false := by
  exact ⟨rfl, rfl⟩

/-- Claim C6 (amended): when the chat call succeeds with a non-empty choice
list, the pipeline returns the first choice's content with surrounding
whitespace stripped; when the choice list is empty, it fails with the
uncaught index error of `response.choices[0]` rather than an apiError. -/
theorem summarize_first_choice (env : Env) (url : String) (doc : NodeList)
    (resp : ChatResponse)
    (hf : env.fetch url = .ok doc)
    (hc : env.chat "gpt-4o-mini" (message_for (Website.ofDoc url doc)) = .ok resp) :
    (resp.choices = [] → (summarize_website env url).1 = .error PyError.indexError)
    ∧ ∀ c cs, resp.choices = c :: cs →
        (summarize_website env url).1 = .ok (pyStrip c.message.content) := by
  constructor
  · intro hch
    simp [summarize_website, hf, hc, hch]
  · intro c cs hch
    simp [summarize_website, hf, hc, hch]

/-- Witness for `summarize_first_choice`: one choice with content
" A short summary. " yields the trimmed summary. -/
theorem summarize_first_choice_witness :
    (summarize_website oneChoiceEnv "http://x/").1
      = Except.ok (pyStrip " A short summary. ")
    ∧ pyStrip " A short summary. " = "A short summary." := by
  refine ⟨?_, by decide⟩
  exact (summarize_first_choice oneChoiceEnv "http://x/"
    (NodeList.ofList [Node.text "hello"])
    { choices := [{ message := { content := " A short summary. " } }] }
    rfl rfl).2 _ _ rfl
